import Mathlib

/-!
Shallow embedding of the coffee-machine backend (backend/app of the
repository): the data model (`models.py`), the storage layer (`storage.py`)
and the business-logic service (`services.py`).

Modelling conventions:
* Python floats carrying resource amounts are embedded as `ℚ`; all the
  quantities the program manipulates (recipe constants, fill amounts,
  container levels) are handled with exact arithmetic by the spec's data
  model ("real"), and no claim is about float rounding.
* Timestamps are abstracted as `ℕ`; `datetime.isoformat` /
  `datetime.fromisoformat` round-trip exactly in Python, so serialising a
  timestamp is embedded as the identity.
* A Python exception escaping a method is an `Except.error`; the pydantic
  `field_validator` on `current_amount` is the partial constructor
  `mkContainer`.
* Calls to `storage.save_state` can raise `IOError`; each service operation
  therefore takes a `saveOk : Bool` telling whether the underlying write
  succeeds, and the result records the in-memory state after the call
  (mutations survive a raised exception), the outcome, the successfully
  persisted records, and the WebSocket broadcast events, in program order.
-/

namespace CoffeeMachine

/-- `CoffeeType` enum from `models.py`. -/
inductive CoffeeType where
  | espresso
  | double_espresso
  | ristretto
  | americano
deriving DecidableEq, Repr

/-- The `.value` string of a `CoffeeType` member. -/
def CoffeeType.value : CoffeeType → String
  | .espresso => "espresso"
  | .double_espresso => "double_espresso"
  | .ristretto => "ristretto"
  | .americano => "americano"

/-- One entry of the `RECIPES` dict: grams of coffee and ml of water. -/
structure Recipe where
  coffee : ℚ
  water : ℚ
deriving DecidableEq, Repr

/-- `RECIPES` from `models.py` lines 18-23.  The dict has an entry for every
member of the closed `CoffeeType` enum, so `RECIPES.get` never misses and the
mapping is embedded as a total function. -/
def RECIPES : CoffeeType → Recipe
  | .espresso => ⟨8, 24⟩
  | .double_espresso => ⟨16, 48⟩
  | .ristretto => ⟨8, 16⟩
  | .americano => ⟨16, 148⟩

/-- A resource container.  `WaterContainer` and `CoffeeContainer` in
`models.py` are textually identical up to their default capacity and the
units in their messages, so a single structure embeds both. -/
structure Container where
  capacity : ℚ
  current_amount : ℚ
deriving DecidableEq, Repr

/-- `can_dispense`: `self.current_amount >= amount`. -/
def Container.can_dispense (c : Container) (amount : ℚ) : Bool :=
  decide (c.current_amount ≥ amount)

/-- `can_fill`: `(self.current_amount + amount) <= self.capacity`. -/
def Container.can_fill (c : Container) (amount : ℚ) : Bool :=
  decide (c.current_amount + amount ≤ c.capacity)

/-- `dispense`: raises `ValueError` (here `none`) unless `can_dispense`,
else subtracts `amount`. -/
def Container.dispense (c : Container) (amount : ℚ) : Option Container :=
  if c.can_dispense amount then
    some { c with current_amount := c.current_amount - amount }
  else none

/-- `fill`: raises `ValueError` (here `none`) unless `can_fill`, else adds
`amount`. -/
def Container.fill (c : Container) (amount : ℚ) : Option Container :=
  if c.can_fill amount then
    some { c with current_amount := c.current_amount + amount }
  else none

/-- The pydantic `field_validator` on `current_amount`: constructing a
container fails when the level is negative or exceeds the capacity. -/
def mkContainer (capacity current_amount : ℚ) : Option Container :=
  if current_amount < 0 then none
  else if current_amount > capacity then none
  else some ⟨capacity, current_amount⟩

/-- The container invariant stated by the spec:
`0 ≤ current_amount ≤ capacity`. -/
def Container.bounded (c : Container) : Prop :=
  0 ≤ c.current_amount ∧ c.current_amount ≤ c.capacity

instance (c : Container) : Decidable c.bounded := by
  unfold Container.bounded; infer_instance

/-- `MachineState` from `models.py`. -/
structure MachineState where
  water_container : Container
  coffee_container : Container
  total_coffees_made : ℤ
  last_updated : ℕ
deriving DecidableEq, Repr

/-- Both containers of a state are within bounds. -/
def MachineState.containersBounded (s : MachineState) : Prop :=
  s.water_container.bounded ∧ s.coffee_container.bounded

instance (s : MachineState) : Decidable s.containersBounded := by
  unfold MachineState.containersBounded; infer_instance

/-- The capacity configuration from `config.py` consumed by
`_create_default_state` and `reset` (fields `water_capacity`,
`coffee_capacity` of `Settings`). -/
structure Settings where
  water_capacity : ℚ
  coffee_capacity : ℚ
deriving DecidableEq, Repr

/-- The default `Settings()` values: 2000.0 ml and 500.0 g. -/
def defaultSettings : Settings := ⟨2000, 500⟩

/-! ## Storage layer (`storage.py`) -/

/-- The logical content of the persisted JSON record written by
`JSONStorage.save_state`. -/
structure StoredRecord where
  water_capacity : ℚ
  water_current : ℚ
  coffee_capacity : ℚ
  coffee_current : ℚ
  total_coffees_made : ℤ
  last_updated : ℕ
deriving DecidableEq, Repr

/-- What `load_state` can find at `file_path`: no file, a file whose parse or
field extraction raises (`json.JSONDecodeError` / `KeyError` / a malformed
timestamp or counter), or a well-formed record. -/
inductive PersistedContent where
  | absent
  | corrupt
  | record (r : StoredRecord)
deriving DecidableEq, Repr

/-- `save_state`: serialises the full state as a single record. -/
def save_state (state : MachineState) : StoredRecord :=
  ⟨state.water_container.capacity, state.water_container.current_amount,
   state.coffee_container.capacity, state.coffee_container.current_amount,
   state.total_coffees_made, state.last_updated⟩

/-- `_create_default_state`: containers at the configured capacities with
level 0, counter 0, fresh timestamp.  The pydantic constructors validate, so
the call raises (`none`) when a configured capacity is negative. -/
def create_default_state (settings : Settings) (now : ℕ) : Option MachineState :=
  match mkContainer settings.water_capacity 0, mkContainer settings.coffee_capacity 0 with
  | some w, some c => some ⟨w, c, 0, now⟩
  | _, _ => none

/-- `load_state`: absent file → default state; parse failure → default
state (the `except` clause swallows `ValueError`); a parsed record whose
container fields fail the pydantic validator → default state; otherwise the
recorded state. -/
def load_state (settings : Settings) (now : ℕ) (content : PersistedContent) :
    Option MachineState :=
  match content with
  | .absent => create_default_state settings now
  | .corrupt => create_default_state settings now
  | .record r =>
    match mkContainer r.water_capacity r.water_current,
          mkContainer r.coffee_capacity r.coffee_current with
    | some w, some c => some ⟨w, c, r.total_coffees_made, r.last_updated⟩
    | _, _ => create_default_state settings now

/-! ## Service layer (`services.py`) -/

/-- The exceptions a service operation can raise: the three typed
`CoffeeMachineException` subclasses from `exceptions.py`, the `IOError`
raised by `JSONStorage.save_state` (the spec's `PersistenceError`), and a
plain `ValueError` (raised by `Container.dispense` / `Container.fill` or a
pydantic validator when reached directly). -/
inductive ServiceError where
  | insufficientResources (resource_type : String) (needed available : ℚ)
  | containerOverflow (container_type : String) (capacity attempted_amount : ℚ)
  | invalidAmount (amount : ℚ) (reason : String)
  | persistenceError
  | valueError (msg : String)
deriving DecidableEq, Repr

/-- The `data` dict returned by `get_status`. -/
structure StatusData where
  water_level : ℚ
  water_capacity : ℚ
  water_percentage : ℚ
  coffee_level : ℚ
  coffee_capacity : ℚ
  coffee_percentage : ℚ
  total_coffees_made : ℤ
  last_updated : ℕ
deriving DecidableEq, Repr

/-- Python `round(x, 2)` (half-to-even on floats is approximated by the
integer rounding of `ℚ`; no claim depends on the tie-breaking rule). -/
def round2 (q : ℚ) : ℚ := (round (q * 100) : ℤ) / 100

/-- `get_status`: pure read of the machine state. -/
def get_status (s : MachineState) : StatusData :=
  let water_percentage :=
    if s.water_container.capacity > 0 then
      s.water_container.current_amount / s.water_container.capacity * 100
    else 0
  let coffee_percentage :=
    if s.coffee_container.capacity > 0 then
      s.coffee_container.current_amount / s.coffee_container.capacity * 100
    else 0
  ⟨s.water_container.current_amount, s.water_container.capacity,
   round2 water_percentage,
   s.coffee_container.current_amount, s.coffee_container.capacity,
   round2 coffee_percentage,
   s.total_coffees_made, s.last_updated⟩

/-- The WebSocket broadcasts issued through `websocket_manager.manager`. -/
inductive Event where
  | coffeeMade (variant : String) (coffee water : ℚ)
  | statusUpdate (data : StatusData)
deriving DecidableEq, Repr

deriving instance DecidableEq for Except

/-- The observable effect of one service call: the in-memory `self.state`
after the call returns or raises, the returned message or raised exception,
the records successfully written by `storage.save_state`, and the broadcast
events, in program order. -/
structure OpResult where
  state : MachineState
  outcome : Except ServiceError String
  saved : List StoredRecord
  events : List Event
deriving DecidableEq, Repr

/-- The `messages` dict at the end of `make_coffee`. -/
def brewMessage : CoffeeType → String
  | .espresso => "Espresso ready! ☕"
  | .double_espresso => "Double espresso ready! ☕"
  | .ristretto => "Ristretto ready! ☕"
  | .americano => "Americano ready! ☕"

/-- `make_coffee(coffee_type)`: check water, check coffee (both against the
pre-mutation state, water first), dispense both, increment the counter,
refresh `last_updated`, broadcast `coffee_made` and a status snapshot, then
persist; an `IOError` from the save propagates after the mutation and the
broadcasts already happened. -/
def make_coffee (saveOk : Bool) (s : MachineState) (coffee_type : CoffeeType)
    (now : ℕ) : OpResult :=
  let recipe := RECIPES coffee_type
  let water_needed := recipe.water
  let coffee_needed := recipe.coffee
  if !(s.water_container.can_dispense water_needed) then
    ⟨s, .error (.insufficientResources "water" water_needed
        s.water_container.current_amount), [], []⟩
  else if !(s.coffee_container.can_dispense coffee_needed) then
    ⟨s, .error (.insufficientResources "coffee" coffee_needed
        s.coffee_container.current_amount), [], []⟩
  else
    match s.water_container.dispense water_needed with
    | none => ⟨s, .error (.valueError "dispense"), [], []⟩
    | some wc =>
      match s.coffee_container.dispense coffee_needed with
      | none => ⟨{ s with water_container := wc },
                 .error (.valueError "dispense"), [], []⟩
      | some cc =>
        let s1 : MachineState :=
          ⟨wc, cc, s.total_coffees_made + 1, now⟩
        let events := [Event.coffeeMade coffee_type.value coffee_needed water_needed,
                       Event.statusUpdate (get_status s1)]
        if saveOk then
          ⟨s1, .ok (brewMessage coffee_type), [save_state s1], events⟩
        else
          ⟨s1, .error .persistenceError, [], events⟩

/-- The success message of `fill_water` (Python float formatting is not
reproduced; the message carries the same data in the same order). -/
def fillWaterMessage (amount newTotal capacity : ℚ) : String :=
  "Added " ++ toString amount ++ "ml of water. Container now at " ++
    toString newTotal ++ "ml/" ++ toString capacity ++ "ml"

/-- The success message of `fill_coffee`. -/
def fillCoffeeMessage (amount newTotal capacity : ℚ) : String :=
  "Added " ++ toString amount ++ "g of coffee. Container now at " ++
    toString newTotal ++ "g/" ++ toString capacity ++ "g"

/-- `fill_water(amount)`: reject `amount <= 0`, reject an overflowing fill,
else apply the fill, refresh `last_updated`, persist, then broadcast a
status snapshot (an `IOError` from the save propagates before the
broadcast). -/
def fill_water (saveOk : Bool) (s : MachineState) (amount : ℚ) (now : ℕ) :
    OpResult :=
  if amount ≤ 0 then
    ⟨s, .error (.invalidAmount amount "Amount must be greater than 0"), [], []⟩
  else if !(s.water_container.can_fill amount) then
    ⟨s, .error (.containerOverflow "water" s.water_container.capacity
        (s.water_container.current_amount + amount)), [], []⟩
  else
    match s.water_container.fill amount with
    | none => ⟨s, .error (.valueError "fill"), [], []⟩
    | some wc =>
      let s1 : MachineState := { s with water_container := wc, last_updated := now }
      if saveOk then
        ⟨s1, .ok (fillWaterMessage amount wc.current_amount wc.capacity),
         [save_state s1], [Event.statusUpdate (get_status s1)]⟩
      else
        ⟨s1, .error .persistenceError, [], []⟩

/-- `fill_coffee(amount)`: same shape as `fill_water` on the coffee
container. -/
def fill_coffee (saveOk : Bool) (s : MachineState) (amount : ℚ) (now : ℕ) :
    OpResult :=
  if amount ≤ 0 then
    ⟨s, .error (.invalidAmount amount "Amount must be greater than 0"), [], []⟩
  else if !(s.coffee_container.can_fill amount) then
    ⟨s, .error (.containerOverflow "coffee" s.coffee_container.capacity
        (s.coffee_container.current_amount + amount)), [], []⟩
  else
    match s.coffee_container.fill amount with
    | none => ⟨s, .error (.valueError "fill"), [], []⟩
    | some cc =>
      let s1 : MachineState := { s with coffee_container := cc, last_updated := now }
      if saveOk then
        ⟨s1, .ok (fillCoffeeMessage amount cc.current_amount cc.capacity),
         [save_state s1], [Event.statusUpdate (get_status s1)]⟩
      else
        ⟨s1, .error .persistenceError, [], []⟩

/-- `reset()`: replace the state wholesale with containers at the configured
capacities, level 0 and counter 0, then persist; no broadcast is issued.  A
pydantic validation failure (negative configured capacity) raises before
`self.state` is reassigned. -/
def reset (saveOk : Bool) (settings : Settings) (s : MachineState) (now : ℕ) :
    OpResult :=
  match mkContainer settings.water_capacity 0, mkContainer settings.coffee_capacity 0 with
  | some w, some c =>
    let s1 : MachineState := ⟨w, c, 0, now⟩
    if saveOk then
      ⟨s1, .ok "Machine reset to empty state.", [save_state s1], []⟩
    else
      ⟨s1, .error .persistenceError, [], []⟩
  | _, _ => ⟨s, .error (.valueError "validation"), [], []⟩

/-! ## Operation sequences (reachable states) -/

/-- One request against the service. -/
inductive Op where
  | makeCoffee (t : CoffeeType)
  | fillWater (amount : ℚ)
  | fillCoffee (amount : ℚ)
  | resetOp
  | getStatusOp
deriving DecidableEq, Repr

/-- The in-memory state after serving one request; the `Bool` tells whether
the persistence write succeeds, the `ℕ` is the wall clock. -/
def applyOp (settings : Settings) (s : MachineState) : Op × Bool × ℕ → MachineState
  | (.makeCoffee t, ok, now) => (make_coffee ok s t now).state
  | (.fillWater a, ok, now) => (fill_water ok s a now).state
  | (.fillCoffee a, ok, now) => (fill_coffee ok s a now).state
  | (.resetOp, ok, now) => (reset ok settings s now).state
  | (.getStatusOp, _, _) => s

/-- The in-memory state after serving a sequence of requests. -/
def run (settings : Settings) (s : MachineState) (ops : List (Op × Bool × ℕ)) :
    MachineState :=
  ops.foldl (applyOp settings) s

/-! ## Basic lemmas about the container operations -/

theorem can_dispense_iff (c : Container) (a : ℚ) :
    c.can_dispense a = true ↔ a ≤ c.current_amount := by
  simp [Container.can_dispense, ge_iff_le]

theorem can_fill_iff (c : Container) (a : ℚ) :
    c.can_fill a = true ↔ c.current_amount + a ≤ c.capacity := by
  simp [Container.can_fill]

theorem dispense_some {c c2 : Container} {a : ℚ} (h : c.dispense a = some c2) :
    a ≤ c.current_amount ∧ c2 = ⟨c.capacity, c.current_amount - a⟩ := by
  unfold Container.dispense at h
  split at h
  · next hcd => cases h; exact ⟨(can_dispense_iff c a).1 hcd, rfl⟩
  · cases h

theorem fill_some {c c2 : Container} {a : ℚ} (h : c.fill a = some c2) :
    c.current_amount + a ≤ c.capacity ∧ c2 = ⟨c.capacity, c.current_amount + a⟩ := by
  unfold Container.fill at h
  split at h
  · next hcf => cases h; exact ⟨(can_fill_iff c a).1 hcf, rfl⟩
  · cases h

theorem mkContainer_some {cap cur : ℚ} {c : Container}
    (h : mkContainer cap cur = some c) :
    0 ≤ cur ∧ cur ≤ cap ∧ c = ⟨cap, cur⟩ := by
  unfold mkContainer at h
  split at h
  · cases h
  · split at h
    · cases h
    · next h1 h2 => cases h; exact ⟨le_of_not_lt h1, le_of_not_lt h2, rfl⟩

theorem mkContainer_of_valid {cap cur : ℚ} (h0 : 0 ≤ cur) (h1 : cur ≤ cap) :
    mkContainer cap cur = some ⟨cap, cur⟩ := by
  unfold mkContainer
  rw [if_neg (not_lt.2 h0), if_neg (not_lt.2 h1)]

theorem create_default_state_of_valid {settings : Settings} (now : ℕ)
    (hw : 0 ≤ settings.water_capacity) (hc : 0 ≤ settings.coffee_capacity) :
    create_default_state settings now =
      some ⟨⟨settings.water_capacity, 0⟩, ⟨settings.coffee_capacity, 0⟩, 0, now⟩ := by
  unfold create_default_state
  rw [mkContainer_of_valid le_rfl hw, mkContainer_of_valid le_rfl hc]

theorem recipe_amounts_pos (t : CoffeeType) :
    0 < (RECIPES t).coffee ∧ 0 < (RECIPES t).water := by
  cases t <;> constructor <;> norm_num [RECIPES]

/-! ## C1: successful brew -/

/-- Claim C1: for every coffee variant, if the water container holds at least
the recipe's water amount and the coffee container at least the recipe's
coffee amount (espresso 8 g / 24 ml, double-espresso 16 / 48, ristretto
8 / 16, americano 16 / 148), `make_coffee` succeeds with the variant-specific
message, decreases the water level by exactly the recipe's water amount,
decreases the coffee level by exactly the recipe's coffee amount, and
increments `total_coffees_made` by exactly 1. -/
theorem make_coffee_success (s : MachineState) (t : CoffeeType) (now : ℕ)
    (hw : (RECIPES t).water ≤ s.water_container.current_amount)
    (hc : (RECIPES t).coffee ≤ s.coffee_container.current_amount) :
    RECIPES .espresso = ⟨8, 24⟩ ∧ RECIPES .double_espresso = ⟨16, 48⟩ ∧
    RECIPES .ristretto = ⟨8, 16⟩ ∧ RECIPES .americano = ⟨16, 148⟩ ∧
    (make_coffee true s t now).outcome = .ok (brewMessage t) ∧
    (make_coffee true s t now).state.water_container.current_amount
      = s.water_container.current_amount - (RECIPES t).water ∧
    (make_coffee true s t now).state.coffee_container.current_amount
      = s.coffee_container.current_amount - (RECIPES t).coffee ∧
    (make_coffee true s t now).state.total_coffees_made
      = s.total_coffees_made + 1 := by
  have hwd : s.water_container.can_dispense (RECIPES t).water = true :=
    (can_dispense_iff _ _).2 hw
  have hcd : s.coffee_container.can_dispense (RECIPES t).coffee = true :=
    (can_dispense_iff _ _).2 hc
  refine ⟨rfl, rfl, rfl, rfl, ?_, ?_, ?_, ?_⟩ <;>
    simp [make_coffee, Container.dispense, hwd, hcd]

/-- Witness for C1 at the spec's scenario 2: water 1000/2000, coffee 500/500,
`brew(espresso)` gives water 976, coffee 492, counter 1. -/
theorem make_coffee_success_witness :
    RECIPES .espresso = ⟨8, 24⟩ ∧ RECIPES .double_espresso = ⟨16, 48⟩ ∧
    RECIPES .ristretto = ⟨8, 16⟩ ∧ RECIPES .americano = ⟨16, 148⟩ ∧
    (make_coffee true ⟨⟨2000, 1000⟩, ⟨500, 500⟩, 0, 0⟩ .espresso 1).outcome
      = .ok (brewMessage .espresso) ∧
    (make_coffee true ⟨⟨2000, 1000⟩, ⟨500, 500⟩, 0, 0⟩ .espresso 1).state.water_container.current_amount
      = 1000 - (RECIPES .espresso).water ∧
    (make_coffee true ⟨⟨2000, 1000⟩, ⟨500, 500⟩, 0, 0⟩ .espresso 1).state.coffee_container.current_amount
      = 500 - (RECIPES .espresso).coffee ∧
    (make_coffee true ⟨⟨2000, 1000⟩, ⟨500, 500⟩, 0, 0⟩ .espresso 1).state.total_coffees_made
      = 0 + 1 :=
  make_coffee_success ⟨⟨2000, 1000⟩, ⟨500, 500⟩, 0, 0⟩ .espresso 1
    (by norm_num [RECIPES]) (by norm_num [RECIPES])

/-! ## C2: the container bounds hold in every reachable state -/

theorem can_dispense_false_iff (c : Container) (a : ℚ) :
    c.can_dispense a = false ↔ c.current_amount < a := by
  simp [Container.can_dispense]

theorem can_fill_false_iff (c : Container) (a : ℚ) :
    c.can_fill a = false ↔ c.capacity < c.current_amount + a := by
  simp [Container.can_fill]

theorem make_coffee_state_bounded {s : MachineState} (ok : Bool) (t : CoffeeType)
    (now : ℕ) (h : s.containersBounded) :
    (make_coffee ok s t now).state.containersBounded := by
  obtain ⟨⟨hw0, hw1⟩, ⟨hc0, hc1⟩⟩ := h
  obtain ⟨hcp, hwp⟩ := recipe_amounts_pos t
  by_cases hwd : (RECIPES t).water ≤ s.water_container.current_amount
  · by_cases hcd : (RECIPES t).coffee ≤ s.coffee_container.current_amount
    · have h1 : s.water_container.can_dispense (RECIPES t).water = true :=
        (can_dispense_iff _ _).2 hwd
      have h2 : s.coffee_container.can_dispense (RECIPES t).coffee = true :=
        (can_dispense_iff _ _).2 hcd
      cases ok <;>
        simp [make_coffee, Container.dispense, h1, h2,
              MachineState.containersBounded, Container.bounded] <;>
        and_intros <;> linarith
    · have h2 : s.coffee_container.can_dispense (RECIPES t).coffee = false :=
        (can_dispense_false_iff _ _).2 (lt_of_not_le hcd)
      rcases h1 : s.water_container.can_dispense (RECIPES t).water with _ | _ <;>
        simp [make_coffee, h1, h2] <;>
        exact ⟨⟨hw0, hw1⟩, ⟨hc0, hc1⟩⟩
  · have h1 : s.water_container.can_dispense (RECIPES t).water = false :=
      (can_dispense_false_iff _ _).2 (lt_of_not_le hwd)
    simp [make_coffee, h1]
    exact ⟨⟨hw0, hw1⟩, ⟨hc0, hc1⟩⟩

theorem fill_water_state_bounded {s : MachineState} (ok : Bool) (a : ℚ)
    (now : ℕ) (h : s.containersBounded) :
    (fill_water ok s a now).state.containersBounded := by
  obtain ⟨⟨hw0, hw1⟩, hcb⟩ := h
  unfold fill_water
  split
  · exact ⟨⟨hw0, hw1⟩, hcb⟩
  · next ha =>
    have ha0 : 0 < a := lt_of_not_le ha
    split
    · exact ⟨⟨hw0, hw1⟩, hcb⟩
    · split
      · exact ⟨⟨hw0, hw1⟩, hcb⟩
      · next wc hwc =>
        obtain ⟨hle, heq⟩ := fill_some hwc
        have hbw : wc.bounded := by subst heq; constructor <;> simp <;> linarith
        split <;> exact ⟨hbw, hcb⟩

theorem fill_coffee_state_bounded {s : MachineState} (ok : Bool) (a : ℚ)
    (now : ℕ) (h : s.containersBounded) :
    (fill_coffee ok s a now).state.containersBounded := by
  obtain ⟨hwb, ⟨hc0, hc1⟩⟩ := h
  unfold fill_coffee
  split
  · exact ⟨hwb, ⟨hc0, hc1⟩⟩
  · next ha =>
    have ha0 : 0 < a := lt_of_not_le ha
    split
    · exact ⟨hwb, ⟨hc0, hc1⟩⟩
    · split
      · exact ⟨hwb, ⟨hc0, hc1⟩⟩
      · next cc hcc =>
        obtain ⟨hle, heq⟩ := fill_some hcc
        have hbc : cc.bounded := by subst heq; constructor <;> simp <;> linarith
        split <;> exact ⟨hwb, hbc⟩

theorem reset_state_bounded {s : MachineState} (ok : Bool) (settings : Settings)
    (now : ℕ) (h : s.containersBounded) :
    (reset ok settings s now).state.containersBounded := by
  unfold reset
  split
  · next w c hw hc =>
    obtain ⟨hw0, hw1, hweq⟩ := mkContainer_some hw
    obtain ⟨hc0, hc1, hceq⟩ := mkContainer_some hc
    have hbw : w.bounded := by subst hweq; exact ⟨hw0, hw1⟩
    have hbc : c.bounded := by subst hceq; exact ⟨hc0, hc1⟩
    split <;> exact ⟨hbw, hbc⟩
  · exact h

theorem applyOp_bounded (settings : Settings) {s : MachineState}
    (op : Op × Bool × ℕ) (h : s.containersBounded) :
    (applyOp settings s op).containersBounded := by
  rcases op with ⟨op, ok, now⟩
  cases op with
  | makeCoffee t => exact make_coffee_state_bounded ok t now h
  | fillWater a => exact fill_water_state_bounded ok a now h
  | fillCoffee a => exact fill_coffee_state_bounded ok a now h
  | resetOp => exact reset_state_bounded ok settings now h
  | getStatusOp => exact h

theorem run_bounded (settings : Settings) {s : MachineState}
    (ops : List (Op × Bool × ℕ)) (h : s.containersBounded) :
    (run settings s ops).containersBounded := by
  induction ops generalizing s with
  | nil => exact h
  | cons op ops ih => exact ih (applyOp_bounded settings op h)

/-- Claim C2: starting from the default state (containers at the configured
capacities with level 0, counter 0), after any finite sequence of service
operations (`make_coffee`, `fill_water`, `fill_coffee`, `reset`,
`get_status`) — with each persistence write allowed to succeed or fail — the
reached state satisfies `0 ≤ current_amount ≤ capacity` for both containers
(and hence so does every reachable state, each being the result of some
sequence). -/
theorem reachable_states_bounded (settings : Settings) (now0 : ℕ)
    (s0 : MachineState) (h0 : create_default_state settings now0 = some s0)
    (ops : List (Op × Bool × ℕ)) :
    (run settings s0 ops).containersBounded := by
  have hb : s0.containersBounded := by
    unfold create_default_state at h0
    split at h0
    · next w c hw hc =>
      obtain ⟨hw0, hw1, hweq⟩ := mkContainer_some hw
      obtain ⟨hc0, hc1, hceq⟩ := mkContainer_some hc
      cases h0
      exact ⟨by subst hweq; exact ⟨hw0, hw1⟩, by subst hceq; exact ⟨hc0, hc1⟩⟩
    · cases h0
  exact run_bounded settings ops hb

/-- Witness for C2: the default machine, a fill, a brew, a failed-save fill
and a reset still leave both containers within bounds. -/
theorem reachable_states_bounded_witness :
    (run defaultSettings ⟨⟨2000, 0⟩, ⟨500, 0⟩, 0, 0⟩
      [(.fillWater 1000, true, 1), (.fillCoffee 500, true, 2),
       (.makeCoffee .espresso, true, 3), (.fillWater 10, false, 4),
       (.resetOp, true, 5), (.getStatusOp, true, 6)]).containersBounded :=
  reachable_states_bounded defaultSettings 0 ⟨⟨2000, 0⟩, ⟨500, 0⟩, 0, 0⟩
    (by norm_num [create_default_state, mkContainer, defaultSettings]) _

/-! ## C3: a brew that fails its resource checks mutates nothing -/

/-- Claim C3: for every state and variant, if `make_coffee` fails its
resource checks (insufficient water or insufficient coffee), it raises
`InsufficientResourcesException` and leaves the whole in-memory state — both
containers' `current_amount`, `total_coffees_made` and `last_updated` —
unchanged, and no persistence write occurs; this holds whether or not the
storage backend would have accepted a write. -/
theorem brew_failure_atomic (saveOk : Bool) (s : MachineState) (t : CoffeeType)
    (now : ℕ)
    (h : s.water_container.can_dispense (RECIPES t).water = false ∨
         s.coffee_container.can_dispense (RECIPES t).coffee = false) :
    (∃ rt needed avail, (make_coffee saveOk s t now).outcome
        = .error (.insufficientResources rt needed avail)) ∧
    (make_coffee saveOk s t now).state = s ∧
    (make_coffee saveOk s t now).saved = [] := by
  by_cases h1 : s.water_container.can_dispense (RECIPES t).water = true
  · have h2 : s.coffee_container.can_dispense (RECIPES t).coffee = false := by
      rcases h with h | h
      · rw [h1] at h; cases h
      · exact h
    refine ⟨⟨"coffee", (RECIPES t).coffee, s.coffee_container.current_amount, ?_⟩, ?_, ?_⟩ <;>
      simp [make_coffee, h1, h2]
  · have h1 : s.water_container.can_dispense (RECIPES t).water = false :=
      Bool.eq_false_iff.2 h1
    refine ⟨⟨"water", (RECIPES t).water, s.water_container.current_amount, ?_⟩, ?_, ?_⟩ <;>
      simp [make_coffee, h1]

/-- Witness for C3 at the spec's scenario 1: the fresh machine (0/2000 water,
0/500 coffee) rejects `brew(espresso)` and changes nothing. -/
theorem brew_failure_atomic_witness :
    (∃ rt needed avail,
      (make_coffee true ⟨⟨2000, 0⟩, ⟨500, 0⟩, 0, 0⟩ .espresso 1).outcome
        = .error (.insufficientResources rt needed avail)) ∧
    (make_coffee true ⟨⟨2000, 0⟩, ⟨500, 0⟩, 0, 0⟩ .espresso 1).state
      = ⟨⟨2000, 0⟩, ⟨500, 0⟩, 0, 0⟩ ∧
    (make_coffee true ⟨⟨2000, 0⟩, ⟨500, 0⟩, 0, 0⟩ .espresso 1).saved = [] :=
  brew_failure_atomic true ⟨⟨2000, 0⟩, ⟨500, 0⟩, 0, 0⟩ .espresso 1
    (Or.inl (by norm_num [Container.can_dispense, RECIPES]))

/-! ## C4: water is checked before coffee -/

/-- Claim C4: in every state where the water container is insufficient for
the variant's recipe and the coffee container is insufficient as well,
`make_coffee` reports the water shortfall: the raised
`InsufficientResourcesException` carries resource `"water"`, the recipe's
water amount as `needed`, and the current water level as `available`. -/
theorem brew_reports_water_first (saveOk : Bool) (s : MachineState)
    (t : CoffeeType) (now : ℕ)
    (hw : s.water_container.can_dispense (RECIPES t).water = false)
    (hc : s.coffee_container.can_dispense (RECIPES t).coffee = false) :
    (make_coffee saveOk s t now).outcome
      = .error (.insufficientResources "water" (RECIPES t).water
          s.water_container.current_amount) := by
  simp [make_coffee, hw]

/-- Witness for C4: the fresh machine lacks both resources for an espresso
and reports `InsufficientResource(water, 24, 0)`. -/
theorem brew_reports_water_first_witness :
    (make_coffee true ⟨⟨2000, 0⟩, ⟨500, 0⟩, 0, 0⟩ .espresso 1).outcome
      = .error (.insufficientResources "water" (RECIPES .espresso).water 0) :=
  brew_reports_water_first true ⟨⟨2000, 0⟩, ⟨500, 0⟩, 0, 0⟩ .espresso 1
    (by norm_num [Container.can_dispense, RECIPES])
    (by norm_num [Container.can_dispense, RECIPES])

/-! ## C5: fill validation -/

/-- Claim C5: for every amount, `fill_water` (and symmetrically
`fill_coffee`) raises `InvalidAmountException` if the amount is ≤ 0;
otherwise it raises `ContainerOverflowException` carrying the container
name, the capacity and `attemptedTotal = current_amount + amount` exactly
when `current_amount + amount > capacity`, leaving the level unchanged in
both failure cases; otherwise it succeeds and the level becomes exactly
`current_amount + amount`. -/
theorem fill_validation (saveOk : Bool) (s : MachineState) (amount : ℚ) (now : ℕ) :
    (amount ≤ 0 →
      (fill_water saveOk s amount now).outcome
        = .error (.invalidAmount amount "Amount must be greater than 0") ∧
      (fill_water saveOk s amount now).state.water_container.current_amount
        = s.water_container.current_amount ∧
      (fill_coffee saveOk s amount now).outcome
        = .error (.invalidAmount amount "Amount must be greater than 0") ∧
      (fill_coffee saveOk s amount now).state.coffee_container.current_amount
        = s.coffee_container.current_amount) ∧
    (0 < amount →
      s.water_container.capacity < s.water_container.current_amount + amount →
      (fill_water saveOk s amount now).outcome
        = .error (.containerOverflow "water" s.water_container.capacity
            (s.water_container.current_amount + amount)) ∧
      (fill_water saveOk s amount now).state.water_container.current_amount
        = s.water_container.current_amount) ∧
    (0 < amount →
      s.coffee_container.capacity < s.coffee_container.current_amount + amount →
      (fill_coffee saveOk s amount now).outcome
        = .error (.containerOverflow "coffee" s.coffee_container.capacity
            (s.coffee_container.current_amount + amount)) ∧
      (fill_coffee saveOk s amount now).state.coffee_container.current_amount
        = s.coffee_container.current_amount) ∧
    (0 < amount →
      s.water_container.current_amount + amount ≤ s.water_container.capacity →
      (fill_water true s amount now).outcome
        = .ok (fillWaterMessage amount (s.water_container.current_amount + amount)
            s.water_container.capacity) ∧
      (fill_water true s amount now).state.water_container.current_amount
        = s.water_container.current_amount + amount) ∧
    (0 < amount →
      s.coffee_container.current_amount + amount ≤ s.coffee_container.capacity →
      (fill_coffee true s amount now).outcome
        = .ok (fillCoffeeMessage amount (s.coffee_container.current_amount + amount)
            s.coffee_container.capacity) ∧
      (fill_coffee true s amount now).state.coffee_container.current_amount
        = s.coffee_container.current_amount + amount) := by
  refine ⟨?_, ?_, ?_, ?_, ?_⟩
  · intro ha
    constructor
    · simp [fill_water, ha]
    constructor
    · simp [fill_water, ha]
    constructor
    · simp [fill_coffee, ha]
    · simp [fill_coffee, ha]
  · intro ha hov
    have ha2 : ¬ amount ≤ 0 := not_le.2 ha
    have hcf : s.water_container.can_fill amount = false :=
      (can_fill_false_iff _ _).2 hov
    constructor <;> simp [fill_water, ha2, hcf]
  · intro ha hov
    have ha2 : ¬ amount ≤ 0 := not_le.2 ha
    have hcf : s.coffee_container.can_fill amount = false :=
      (can_fill_false_iff _ _).2 hov
    constructor <;> simp [fill_coffee, ha2, hcf]
  · intro ha hle
    have ha2 : ¬ amount ≤ 0 := not_le.2 ha
    have hcf : s.water_container.can_fill amount = true :=
      (can_fill_iff _ _).2 hle
    constructor <;> simp [fill_water, ha2, hcf, Container.fill]
  · intro ha hle
    have ha2 : ¬ amount ≤ 0 := not_le.2 ha
    have hcf : s.coffee_container.can_fill amount = true :=
      (can_fill_iff _ _).2 hle
    constructor <;> simp [fill_coffee, ha2, hcf, Container.fill]

/-- Witness for C5 at the spec's scenario 3 state: water at 1800/2000,
coffee at 100/500, amount 100 (the successful-fill case is concretely
reachable; the failure branches are instantiated vacuously-true
implications of the same statement). -/
theorem fill_validation_witness :
    ((100 : ℚ) ≤ 0 →
      (fill_water true ⟨⟨2000, 1800⟩, ⟨500, 100⟩, 0, 0⟩ 100 1).outcome
        = .error (.invalidAmount 100 "Amount must be greater than 0") ∧
      (fill_water true ⟨⟨2000, 1800⟩, ⟨500, 100⟩, 0, 0⟩ 100 1).state.water_container.current_amount
        = 1800 ∧
      (fill_coffee true ⟨⟨2000, 1800⟩, ⟨500, 100⟩, 0, 0⟩ 100 1).outcome
        = .error (.invalidAmount 100 "Amount must be greater than 0") ∧
      (fill_coffee true ⟨⟨2000, 1800⟩, ⟨500, 100⟩, 0, 0⟩ 100 1).state.coffee_container.current_amount
        = 100) ∧
    ((0 : ℚ) < 100 → (2000 : ℚ) < 1800 + 100 →
      (fill_water true ⟨⟨2000, 1800⟩, ⟨500, 100⟩, 0, 0⟩ 100 1).outcome
        = .error (.containerOverflow "water" 2000 (1800 + 100)) ∧
      (fill_water true ⟨⟨2000, 1800⟩, ⟨500, 100⟩, 0, 0⟩ 100 1).state.water_container.current_amount
        = 1800) ∧
    ((0 : ℚ) < 100 → (500 : ℚ) < 100 + 100 →
      (fill_coffee true ⟨⟨2000, 1800⟩, ⟨500, 100⟩, 0, 0⟩ 100 1).outcome
        = .error (.containerOverflow "coffee" 500 (100 + 100)) ∧
      (fill_coffee true ⟨⟨2000, 1800⟩, ⟨500, 100⟩, 0, 0⟩ 100 1).state.coffee_container.current_amount
        = 100) ∧
    ((0 : ℚ) < 100 → (1800 : ℚ) + 100 ≤ 2000 →
      (fill_water true ⟨⟨2000, 1800⟩, ⟨500, 100⟩, 0, 0⟩ 100 1).outcome
        = .ok (fillWaterMessage 100 (1800 + 100) 2000) ∧
      (fill_water true ⟨⟨2000, 1800⟩, ⟨500, 100⟩, 0, 0⟩ 100 1).state.water_container.current_amount
        = 1800 + 100) ∧
    ((0 : ℚ) < 100 → (100 : ℚ) + 100 ≤ 500 →
      (fill_coffee true ⟨⟨2000, 1800⟩, ⟨500, 100⟩, 0, 0⟩ 100 1).outcome
        = .ok (fillCoffeeMessage 100 (100 + 100) 500) ∧
      (fill_coffee true ⟨⟨2000, 1800⟩, ⟨500, 100⟩, 0, 0⟩ 100 1).state.coffee_container.current_amount
        = 100 + 100) :=
  fill_validation true ⟨⟨2000, 1800⟩, ⟨500, 100⟩, 0, 0⟩ 100 1

/-! ## C6: persistence round-trip -/

/-- Claim C6: for every machine state (whose containers satisfy the data
model's `0 ≤ current_amount ≤ capacity` bound, which pydantic enforces at
construction), `save_state` followed by `load_state` returns a state with
identical water and coffee capacities and current amounts, identical
`total_coffees_made`, and the same `last_updated` timestamp (the
`isoformat` serialisation round-trips exactly, embedded as the identity on
the abstract timestamp). -/
theorem save_load_roundtrip (settings : Settings) (now : ℕ) (s : MachineState)
    (hw : s.water_container.bounded) (hc : s.coffee_container.bounded) :
    load_state settings now (.record (save_state s)) = some s := by
  obtain ⟨hw0, hw1⟩ := hw
  obtain ⟨hc0, hc1⟩ := hc
  show (match mkContainer s.water_container.capacity s.water_container.current_amount,
              mkContainer s.coffee_container.capacity s.coffee_container.current_amount with
        | some w, some c =>
          some (⟨w, c, s.total_coffees_made, s.last_updated⟩ : MachineState)
        | _, _ => create_default_state settings now) = some s
  rw [mkContainer_of_valid hw0 hw1, mkContainer_of_valid hc0 hc1]

/-- Witness for C6: the post-brew state water 976/2000, coffee 492/500,
counter 1, timestamp 5 survives a save/load round-trip unchanged. -/
theorem save_load_roundtrip_witness :
    load_state defaultSettings 9
        (.record (save_state ⟨⟨2000, 976⟩, ⟨500, 492⟩, 1, 5⟩))
      = some ⟨⟨2000, 976⟩, ⟨500, 492⟩, 1, 5⟩ :=
  save_load_roundtrip defaultSettings 9 ⟨⟨2000, 976⟩, ⟨500, 492⟩, 1, 5⟩
    (by constructor <;> norm_num) (by constructor <;> norm_num)

/-! ## C7: loading never fails -/

/-- Claim C7: `load_state` never fails — for every possible content of the
persisted record (absent file, unparsable or corrupt contents, out-of-bounds
values), it returns a valid machine state; when the record is absent or
unreadable/corrupt it returns the fresh default state with the configured
capacities, levels 0 and counter 0, and no error is surfaced.  (The
configured capacities are assumed nonnegative, as the data model requires;
a negative configured capacity would make pydantic reject even the default
state.) -/
theorem load_state_total (settings : Settings) (now : ℕ)
    (content : PersistedContent)
    (hw : 0 ≤ settings.water_capacity) (hc : 0 ≤ settings.coffee_capacity) :
    ∃ s, load_state settings now content = some s ∧ s.containersBounded ∧
      ((content = .absent ∨ content = .corrupt) →
        s = ⟨⟨settings.water_capacity, 0⟩, ⟨settings.coffee_capacity, 0⟩, 0, now⟩) := by
  have hdef := @create_default_state_of_valid settings now hw hc
  have hdefb : MachineState.containersBounded
      ⟨⟨settings.water_capacity, 0⟩, ⟨settings.coffee_capacity, 0⟩, 0, now⟩ :=
    ⟨⟨le_rfl, hw⟩, ⟨le_rfl, hc⟩⟩
  cases content with
  | absent => exact ⟨_, by simpa [load_state] using hdef, hdefb, fun _ => rfl⟩
  | corrupt => exact ⟨_, by simpa [load_state] using hdef, hdefb, fun _ => rfl⟩
  | record r =>
    rcases h1 : mkContainer r.water_capacity r.water_current with _ | w
    · exact ⟨_, by simpa [load_state, h1] using hdef, hdefb, by simp⟩
    · rcases h2 : mkContainer r.coffee_capacity r.coffee_current with _ | c
      · exact ⟨_, by simpa [load_state, h1, h2] using hdef, hdefb, by simp⟩
      · obtain ⟨hw0, hw1, hweq⟩ := mkContainer_some h1
        obtain ⟨hc0, hc1, hceq⟩ := mkContainer_some h2
        refine ⟨⟨w, c, r.total_coffees_made, r.last_updated⟩,
          by simp [load_state, h1, h2], ⟨?_, ?_⟩, by simp⟩
        · subst hweq; exact ⟨hw0, hw1⟩
        · subst hceq; exact ⟨hc0, hc1⟩

/-- Witness for C7: a record with an out-of-bounds water level (5000 in a
2000 ml container) loads as a valid state rather than failing. -/
theorem load_state_total_witness :
    ∃ s, load_state defaultSettings 3
          (.record ⟨2000, 5000, 500, 100, 7, 1⟩) = some s ∧
        s.containersBounded ∧
        (((.record ⟨2000, 5000, 500, 100, 7, 1⟩ : PersistedContent) = .absent ∨
          (.record ⟨2000, 5000, 500, 100, 7, 1⟩ : PersistedContent) = .corrupt) →
          s = ⟨⟨2000, 0⟩, ⟨500, 0⟩, 0, 3⟩) :=
  load_state_total defaultSettings 3 (.record ⟨2000, 5000, 500, 100, 7, 1⟩)
    (by norm_num [defaultSettings]) (by norm_num [defaultSettings])

/-! ## C8: container mutations and the bound -/

/-- Claim C8 as stated is false on the code: the `Container` interface
indeed places no sign restriction on `amount`, and for a negative amount the
guard `can_fill` (`current + amount ≤ capacity`) passes while the fill
drives the level negative.  Concretely, a container at level 0 with
capacity 10 satisfies the bound, `fill(-5)` does not raise, and the
resulting container has `current_amount = -5 < 0`. -/
theorem fill_negative_amount_breaks_bound :
    Container.bounded ⟨10, 0⟩ ∧
    Container.fill ⟨10, 0⟩ (-5) = some ⟨10, -5⟩ ∧
    ¬ Container.bounded ⟨10, -5⟩ := by
  refine ⟨⟨by norm_num, by norm_num⟩, ?_, ?_⟩
  · simp [Container.fill, Container.can_fill]
    norm_num
  · intro h
    exact absurd h.1 (by norm_num)

/-- Claim C8 amended: for every container satisfying
`0 ≤ current_amount ≤ capacity` and every nonnegative amount, a
`fill(amount)` or `dispense(amount)` call that does not raise leaves the
container again satisfying `0 ≤ current_amount ≤ capacity` (the bound is
enforced on every mutation; for negative amounts the mutation guards do not
protect the bound, see the counterexample). -/
theorem container_mutations_preserve_bound (c : Container) (amount : ℚ)
    (h : c.bounded) (ha : 0 ≤ amount) :
    (∀ c2, c.fill amount = some c2 → c2.bounded) ∧
    (∀ c2, c.dispense amount = some c2 → c2.bounded) := by
  obtain ⟨h0, h1⟩ := h
  constructor
  · intro c2 hc2
    obtain ⟨hle, heq⟩ := fill_some hc2
    subst heq
    exact ⟨by simp; linarith, by simp; linarith⟩
  · intro c2 hc2
    obtain ⟨hle, heq⟩ := dispense_some hc2
    subst heq
    exact ⟨by simp; linarith, by simp; linarith⟩

/-- Witness for the amended C8: a container at 4/10 keeps the bound under
both a fill and a dispense of 3. -/
theorem container_mutations_preserve_bound_witness :
    (∀ c2, Container.fill ⟨10, 4⟩ 3 = some c2 → c2.bounded) ∧
    (∀ c2, Container.dispense ⟨10, 4⟩ 3 = some c2 → c2.bounded) :=
  container_mutations_preserve_bound ⟨10, 4⟩ 3
    ⟨by norm_num, by norm_num⟩ (by norm_num)

/-! ## C9: persistence failure after a successful mutation -/

/-- Claim C9: if the storage save raises during a mutating operation whose
resource checks passed, the in-memory state stands — the dispense/fill and
the counter increment applied before the save are retained, not rolled
back — and the persistence failure is reported as a distinct error (the
`IOError` raised by `JSONStorage.save_state`, the spec's `PersistenceError`)
rather than silently dropped; this holds for every state, every brew whose
two resource checks pass, and every fill whose validation passes. -/
theorem save_failure_state_stands (s : MachineState) (t : CoffeeType)
    (a b : ℚ) (now : ℕ)
    (hbw : (RECIPES t).water ≤ s.water_container.current_amount)
    (hbc : (RECIPES t).coffee ≤ s.coffee_container.current_amount)
    (ha0 : 0 < a)
    (haf : s.water_container.current_amount + a ≤ s.water_container.capacity)
    (hb0 : 0 < b)
    (hbf : s.coffee_container.current_amount + b ≤ s.coffee_container.capacity) :
    ((make_coffee false s t now).outcome = .error .persistenceError ∧
     (make_coffee false s t now).state.water_container.current_amount
       = s.water_container.current_amount - (RECIPES t).water ∧
     (make_coffee false s t now).state.coffee_container.current_amount
       = s.coffee_container.current_amount - (RECIPES t).coffee ∧
     (make_coffee false s t now).state.total_coffees_made
       = s.total_coffees_made + 1) ∧
    ((fill_water false s a now).outcome = .error .persistenceError ∧
     (fill_water false s a now).state.water_container.current_amount
       = s.water_container.current_amount + a) ∧
    ((fill_coffee false s b now).outcome = .error .persistenceError ∧
     (fill_coffee false s b now).state.coffee_container.current_amount
       = s.coffee_container.current_amount + b) := by
  have h1 : s.water_container.can_dispense (RECIPES t).water = true :=
    (can_dispense_iff _ _).2 hbw
  have h2 : s.coffee_container.can_dispense (RECIPES t).coffee = true :=
    (can_dispense_iff _ _).2 hbc
  have ha2 : ¬ a ≤ 0 := not_le.2 ha0
  have hb2 : ¬ b ≤ 0 := not_le.2 hb0
  have h3 : s.water_container.can_fill a = true := (can_fill_iff _ _).2 haf
  have h4 : s.coffee_container.can_fill b = true := (can_fill_iff _ _).2 hbf
  refine ⟨⟨?_, ?_, ?_, ?_⟩, ⟨?_, ?_⟩, ⟨?_, ?_⟩⟩ <;>
    simp [make_coffee, fill_water, fill_coffee, Container.dispense, Container.fill,
          h1, h2, h3, h4, ha2, hb2]

/-- Witness for C9: water 1000/2000, coffee 400/500, espresso brew and fills
of 10 with a failing storage write keep the mutations and report the
failure. -/
theorem save_failure_state_stands_witness :
    ((make_coffee false ⟨⟨2000, 1000⟩, ⟨500, 400⟩, 2, 0⟩ .espresso 1).outcome
        = .error .persistenceError ∧
     (make_coffee false ⟨⟨2000, 1000⟩, ⟨500, 400⟩, 2, 0⟩ .espresso 1).state.water_container.current_amount
        = 1000 - (RECIPES .espresso).water ∧
     (make_coffee false ⟨⟨2000, 1000⟩, ⟨500, 400⟩, 2, 0⟩ .espresso 1).state.coffee_container.current_amount
        = 400 - (RECIPES .espresso).coffee ∧
     (make_coffee false ⟨⟨2000, 1000⟩, ⟨500, 400⟩, 2, 0⟩ .espresso 1).state.total_coffees_made
        = 2 + 1) ∧
    ((fill_water false ⟨⟨2000, 1000⟩, ⟨500, 400⟩, 2, 0⟩ 10 1).outcome
        = .error .persistenceError ∧
     (fill_water false ⟨⟨2000, 1000⟩, ⟨500, 400⟩, 2, 0⟩ 10 1).state.water_container.current_amount
        = 1000 + 10) ∧
    ((fill_coffee false ⟨⟨2000, 1000⟩, ⟨500, 400⟩, 2, 0⟩ 10 1).outcome
        = .error .persistenceError ∧
     (fill_coffee false ⟨⟨2000, 1000⟩, ⟨500, 400⟩, 2, 0⟩ 10 1).state.coffee_container.current_amount
        = 400 + 10) :=
  save_failure_state_stands ⟨⟨2000, 1000⟩, ⟨500, 400⟩, 2, 0⟩ .espresso 10 10 1
    (by norm_num [RECIPES]) (by norm_num [RECIPES]) (by norm_num) (by norm_num)
    (by norm_num) (by norm_num)

/-! ## C10: reset notifies nobody -/

/-- Claim C10: `reset` never notifies subscribers — it replaces the machine
state wholesale (containers at the configured capacities with level 0,
counter 0) and persists it, but triggers no WebSocket broadcast, whether the
persistence write succeeds or fails — unlike `make_coffee`, `fill_water`
and `fill_coffee`, which each broadcast a status update on success; observers
therefore receive no event when the machine is reset. -/
theorem reset_broadcasts_nothing (settings : Settings) (s : MachineState)
    (t : CoffeeType) (a b : ℚ) (now : ℕ) (saveOk : Bool)
    (hw : 0 ≤ settings.water_capacity) (hc : 0 ≤ settings.coffee_capacity)
    (hbw : (RECIPES t).water ≤ s.water_container.current_amount)
    (hbc : (RECIPES t).coffee ≤ s.coffee_container.current_amount)
    (ha0 : 0 < a)
    (haf : s.water_container.current_amount + a ≤ s.water_container.capacity)
    (hb0 : 0 < b)
    (hbf : s.coffee_container.current_amount + b ≤ s.coffee_container.capacity) :
    (reset saveOk settings s now).events = [] ∧
    (reset true settings s now).state
      = ⟨⟨settings.water_capacity, 0⟩, ⟨settings.coffee_capacity, 0⟩, 0, now⟩ ∧
    (reset true settings s now).saved
      = [save_state ⟨⟨settings.water_capacity, 0⟩, ⟨settings.coffee_capacity, 0⟩, 0, now⟩] ∧
    (∃ d, Event.statusUpdate d ∈ (make_coffee true s t now).events) ∧
    (∃ d, Event.statusUpdate d ∈ (fill_water true s a now).events) ∧
    (∃ d, Event.statusUpdate d ∈ (fill_coffee true s b now).events) := by
  have h1 : s.water_container.can_dispense (RECIPES t).water = true :=
    (can_dispense_iff _ _).2 hbw
  have h2 : s.coffee_container.can_dispense (RECIPES t).coffee = true :=
    (can_dispense_iff _ _).2 hbc
  have ha2 : ¬ a ≤ 0 := not_le.2 ha0
  have hb2 : ¬ b ≤ 0 := not_le.2 hb0
  have h3 : s.water_container.can_fill a = true := (can_fill_iff _ _).2 haf
  have h4 : s.coffee_container.can_fill b = true := (can_fill_iff _ _).2 hbf
  have hrw := @mkContainer_of_valid settings.water_capacity 0 le_rfl hw
  have hrc := @mkContainer_of_valid settings.coffee_capacity 0 le_rfl hc
  constructor
  · cases saveOk <;> simp [reset, hrw, hrc]
  constructor
  · simp [reset, hrw, hrc]
  constructor
  · simp [reset, hrw, hrc]
  constructor
  · simp [make_coffee, Container.dispense, h1, h2]
  constructor
  · simp [fill_water, Container.fill, ha2, h3]
  · simp [fill_coffee, Container.fill, hb2, h4]

/-- Witness for C10: at water 1000/2000, coffee 400/500 with default
settings, reset broadcasts nothing while brew and the two fills each
broadcast a status update. -/
theorem reset_broadcasts_nothing_witness :
    (reset false defaultSettings ⟨⟨2000, 1000⟩, ⟨500, 400⟩, 2, 0⟩ 1).events = [] ∧
    (reset true defaultSettings ⟨⟨2000, 1000⟩, ⟨500, 400⟩, 2, 0⟩ 1).state
      = ⟨⟨2000, 0⟩, ⟨500, 0⟩, 0, 1⟩ ∧
    (reset true defaultSettings ⟨⟨2000, 1000⟩, ⟨500, 400⟩, 2, 0⟩ 1).saved
      = [save_state ⟨⟨2000, 0⟩, ⟨500, 0⟩, 0, 1⟩] ∧
    (∃ d, Event.statusUpdate d
      ∈ (make_coffee true ⟨⟨2000, 1000⟩, ⟨500, 400⟩, 2, 0⟩ .espresso 1).events) ∧
    (∃ d, Event.statusUpdate d
      ∈ (fill_water true ⟨⟨2000, 1000⟩, ⟨500, 400⟩, 2, 0⟩ 10 1).events) ∧
    (∃ d, Event.statusUpdate d
      ∈ (fill_coffee true ⟨⟨2000, 1000⟩, ⟨500, 400⟩, 2, 0⟩ 10 1).events) :=
  reset_broadcasts_nothing defaultSettings ⟨⟨2000, 1000⟩, ⟨500, 400⟩, 2, 0⟩
    .espresso 10 10 1 false
    (by norm_num [defaultSettings]) (by norm_num [defaultSettings])
    (by norm_num [RECIPES]) (by norm_num [RECIPES]) (by norm_num) (by norm_num)
    (by norm_num) (by norm_num)

end CoffeeMachine
